import Mathlib

/-!
Verification of the multi-target push dispatch engine, validation helpers,
history persistence and configuration loading of the interactive git
wrapper (`gw.py`).  Python functions are shallowly embedded as Lean
definitions; subprocess results, thread completion order and file states
are explicit parameters.
-/

namespace GitWrapper

/-! ## CommandRunner (`run_git_command`, gw.py lines 146-163) -/

/-- Characters removed by Python `str.strip()` with no argument. -/
def isPySpace (c : Char) : Bool :=
  [' ', '\t', '\n', '\r', '\x0b', '\x0c'].contains c

/-- Python `str.strip()` on the character list: whitespace removed from
both ends. -/
def pyStripChars (l : List Char) : List Char :=
  ((l.dropWhile isPySpace).reverse.dropWhile isPySpace).reverse

/-- Python `str.strip()`. -/
def pyStrip (s : String) : String :=
  ⟨pyStripChars s.toList⟩

/-- Python `str.split('\n')` on the character list: splits at every
newline, keeping empty pieces; the empty string yields one empty piece. -/
def splitNl : List Char → List (List Char)
  | [] => [[]]
  | c :: rest =>
    match splitNl rest with
    | [] => [[]]
    | g :: gs => if c = '\n' then [] :: g :: gs else (c :: g) :: gs

/-- Python `str.split('\n')`. -/
def pySplitNl (s : String) : List String :=
  (splitNl s.toList).map (fun l => ⟨l⟩)

/-- Python `s.startswith(pre)`. -/
def strStartsWith (s pre : String) : Bool :=
  List.isPrefixOf pre.toList s.toList

/-- Python `s.endswith(suf)`. -/
def strEndsWith (s suf : String) : Bool :=
  List.isPrefixOf suf.toList.reverse s.toList.reverse

/-- Occurrence of `sub` as a contiguous run inside `l`: it is a prefix of
some suffix. -/
def subOccurs (sub : List Char) : List Char → Bool
  | [] => List.isPrefixOf sub []
  | c :: rest => List.isPrefixOf sub (c :: rest) || subOccurs sub rest

/-- Python substring containment `sub in s`. -/
def strContainsSub (s sub : String) : Bool :=
  subOccurs sub.toList s.toList

/-- Result of one subprocess invocation of the external tool:
exit status, captured standard output and standard error. -/
structure ProcResult where
  returncode : Int
  stdout : String
  stderr : String

/-- Python return type of `run_git_command`: `Union[bool, str]`.
On a capture success it returns the stripped stdout string, on a
non-capture success `True`, and on a `CalledProcessError` it returns
`False` (the exception is caught, never propagated). -/
inductive GitCommandResult where
  | str (s : String)
  | bool (b : Bool)
deriving DecidableEq

/-- Embedding of `run_git_command(cmd, capture_output)`.  `subprocess.run`
with `check=True` raises `CalledProcessError` exactly when the exit status
is non-zero; the `except` clause turns that into `False`.  On success the
capture path returns `result.stdout.strip()` (modelled with `String.trim`)
and the non-capture path returns `True`. -/
def run_git_command (res : ProcResult) (capture_output : Bool) : GitCommandResult :=
  if res.returncode = 0 then
    if capture_output then .str (pyStrip res.stdout) else .bool true
  else .bool false

/-! ## Branch-name validation (`validate_branch_name`, gw.py lines 165-175) -/

/-- The `invalid_chars` list of `validate_branch_name` (each entry is a
substring to search for; note `".."` is a two-character substring). -/
def invalid_chars : List String :=
  [" ", "~", "^", ":", "?", "*", "[", "\\", ".."]

/-- Embedding of `validate_branch_name`: empty names, names containing any
entry of `invalid_chars` as a substring (`char in name`), names starting
with `-`, and names ending with `.` or `.lock` are invalid. -/
def validate_branch_name (name : String) : Bool :=
  if name = "" then false
  else if invalid_chars.any (fun c => strContainsSub name c) then false
  else if strStartsWith name "-" || strEndsWith name "." || strEndsWith name ".lock" then
    false
  else true

/-! ## Target resolver (`get_remotes`, gw.py lines 250-253) -/

/-- Embedding of `get_remotes`: runs `git remote` in capture mode and
returns `remotes_output.split('\n') if remotes_output else []`.  The
captured value is falsy when it is the `False` of a failed command or the
empty string of an empty remote list; both give `[]`. -/
def get_remotes (proc : ProcResult) : List String :=
  match run_git_command proc true with
  | .str s => if s = "" then [] else pySplitNl s
  | .bool _ => []

/-! ## Multi-select menu (`get_multiple_choice`, gw.py lines 219-242) -/

/-- Embedding of the selection loop of `get_multiple_choice`, applied to
the already-parsed integers `choice_nums`: every number must satisfy
`1 <= num <= len(choices)`, otherwise the function reports the invalid
choice and returns `[]`; when all are valid it returns the corresponding
choices in input order, duplicates included.  An empty input likewise
yields `[]`. -/
def get_multiple_choice (choices : List String) (choice_nums : List Int) : List String :=
  if choice_nums.all (fun n => 1 ≤ n && n ≤ (choices.length : Int)) then
    choice_nums.map (fun n => choices.getD (n - 1).toNat "")
  else []

/-! ## Push dispatch engine (gw.py lines 603-661) -/

/-- What one parallel worker's `future.result()` delivers: the boolean
returned by `_execute_push`, or a raised exception (caught by the
`except Exception` clause of `_push_parallel`). -/
inductive WorkerResult where
  | ok (b : Bool)
  | raised
deriving DecidableEq

/-- Whether a parallel worker's result counts as a success: only
`future.result()` returning `True` does; `False` and a raised exception
both put the remote on the failed list. -/
def workerOk (wr : String → WorkerResult) (r : String) : Bool :=
  match wr r with
  | .ok true => true
  | .ok false => false
  | .raised => false

/-- The three arguments of `_print_push_summary(success, total, failed)`. -/
structure PushSummary where
  succeeded : Nat
  total : Nat
  failed : List String
deriving DecidableEq

/-- One iteration of the `for remote in remotes` loop of
`_push_sequential`: a successful push increments `success_count`, a failed
one appends the remote to `failed_remotes`. -/
def seqStep (outcome : String → Bool) (acc : Nat × List String) (r : String) :
    Nat × List String :=
  if outcome r then (acc.1 + 1, acc.2) else (acc.1, acc.2 ++ [r])

/-- Embedding of the loop of `_push_sequential` (gw.py lines 614-628):
remotes are processed strictly in request order; `outcome r` is the
boolean `_execute_push(r, branch, show_output=False)` returns. -/
def pushSequential (outcome : String → Bool) (remotes : List String) :
    Nat × List String :=
  remotes.foldl (seqStep outcome) (0, [])

/-- One iteration of the `for future in as_completed(...)` loop of
`_push_parallel`: `future.result()` returning `True` increments
`success_count`; returning `False` or raising appends the remote to
`failed_remotes`. -/
def parStep (wr : String → WorkerResult) (acc : Nat × List String) (r : String) :
    Nat × List String :=
  match wr r with
  | .ok true => (acc.1 + 1, acc.2)
  | .ok false => (acc.1, acc.2 ++ [r])
  | .raised => (acc.1, acc.2 ++ [r])

/-- Embedding of the collection loop of `_push_parallel` (gw.py lines
630-655).  One future is submitted per remote; `as_completed` yields them
in thread completion order, which is nondeterministic, so it is passed
explicitly as `completed`, a permutation of the submitted remotes. -/
def pushParallel (wr : String → WorkerResult) (completed : List String) :
    Nat × List String :=
  completed.foldl (parStep wr) (0, [])

/-- Summary printed by `_push_sequential`:
`_print_push_summary(success_count, len(remotes), failed_remotes)`. -/
def pushSequentialSummary (outcome : String → Bool) (remotes : List String) :
    PushSummary :=
  ⟨(pushSequential outcome remotes).1, remotes.length, (pushSequential outcome remotes).2⟩

/-- Summary printed by `_push_parallel`:
`_print_push_summary(success_count, len(remotes), failed_remotes)`, where
the counts were accumulated in completion order `completed`. -/
def pushParallelSummary (wr : String → WorkerResult)
    (remotes completed : List String) : PushSummary :=
  ⟨(pushParallel wr completed).1, remotes.length, (pushParallel wr completed).2⟩

/-- Mode selection of `_push_to_remotes` (gw.py lines 607-612): the
parallel branch is taken iff the `parallel` argument is set, the
`parallel_push` configuration entry (`self.config.get('parallel_push',
True)`) is true, and there is more than one remote. -/
def push_to_remotes_parallel (parallel : Bool) (parallel_push : Bool)
    (remotes : List String) : Bool :=
  parallel && parallel_push && decide (remotes.length > 1)

/-- The argument vector `_execute_push`/`run_git_command` spawns for one
remote: `['git', 'push', remote, branch]`. -/
def pushInvocations (remotes : List String) (branch : String) :
    List (List String) :=
  remotes.map (fun r => ["git", "push", r, branch])

/-- Embedding of the control flow of `interactive_push_multiple` (gw.py
lines 722-750), returning the list of push subprocess invocations it
spawns: no remotes, a single remote, or an empty selection all return
before any push; otherwise `_push_to_remotes` issues one
`git push remote branch` per selected remote (in both modes the same
invocations are submitted, one per list entry).  The branch name taken
from `get_input` is passed through unvalidated. -/
def interactive_push_multiple (remotes : List String) (branch : String)
    (choice_nums : List Int) : List (List String) :=
  if remotes.isEmpty then []
  else if remotes.length = 1 then []
  else
    match get_multiple_choice remotes choice_nums with
    | [] => []
    | selected => pushInvocations selected branch

/-! ## History persistence (gw.py lines 83-101) -/

/-- One history record as built by `add_to_history`. -/
structure HistoryEntry where
  command : String
  description : String
  timestamp : Nat
deriving DecidableEq

/-- Python list slice `l[k:]` for an arbitrary integer `k`: a nonnegative
start drops the first `k` elements; a negative start counts from the end,
clamped at the front of the list. -/
def pySliceFrom {α : Type} (l : List α) (k : Int) : List α :=
  if 0 ≤ k then l.drop k.toNat else l.drop ((l.length : Int) + k).toNat

/-- Embedding of `save_history`: the in-memory history is replaced by
`self.history[-max_history:]` before being written out.  The persisted
file content equals the returned list. -/
def save_history (max_history : Int) (history : List HistoryEntry) :
    List HistoryEntry :=
  pySliceFrom history (-max_history)

/-- Embedding of `add_to_history`: appends the new record and immediately
saves (trims) the history. -/
def add_to_history (max_history : Int) (history : List HistoryEntry)
    (command description : String) (timestamp : Nat) : List HistoryEntry :=
  save_history max_history (history ++ [⟨command, description, timestamp⟩])

/-- The spec scenario: starting from an empty history with
`max_history = 5`, add `command0` .. `command9` in order. -/
def scenarioHistory : List HistoryEntry :=
  (List.range 10).foldl
    (fun h i => add_to_history 5 h ("command" ++ toString i)
      ("Description " ++ toString i) i) []

/-! ## Configuration loading (`load_config`, gw.py lines 50-63) -/

/-- JSON values occurring in the configuration file.  `num` also stands
for any other non-iterable JSON value (the case that makes `dict.update`
raise). -/
inductive JsonVal where
  | str (s : String)
  | bool (b : Bool)
  | num (n : Int)
deriving DecidableEq

/-- A Python dict with string keys, as an insertion-ordered association
list with unique keys. -/
abbrev Dict := List (String × JsonVal)

/-- The hardcoded defaults assigned to `self.config` at the top of
`load_config`. -/
def defaults : Dict :=
  [("name", .str ""), ("email", .str ""), ("default_branch", .str "main"),
   ("auto_push", .bool true), ("show_emoji", .bool true),
   ("default_remote", .str "origin"), ("use_colors", .bool true),
   ("parallel_push", .bool true), ("max_history", .num 20)]

/-- Python dict assignment `d[k] = v`: an existing key keeps its position
and gets the new value, a new key is appended at the end. -/
def dictSet : Dict → String → JsonVal → Dict
  | [], k, v => [(k, v)]
  | p :: rest, k, v =>
    if p.1 = k then (k, v) :: rest else p :: dictSet rest k v

/-- Python `d.update(entries)` for a dict argument: assignments applied
in the iteration order of `entries`. -/
def dictUpdate (d : Dict) (entries : Dict) : Dict :=
  entries.foldl (fun acc p => dictSet acc p.1 p.2) d

/-- Python `d.get(k)` / `d[k]` lookup. -/
def dictLookup : Dict → String → Option JsonVal
  | [], _ => none
  | p :: rest, k => if p.1 = k then some p.2 else dictLookup rest k

/-- The value the key `k` ends up with after `dict.update(entries)` when
`entries` may bind `k` several times: the last binding wins. -/
def dictLookupLast : Dict → String → Option JsonVal
  | [], _ => none
  | p :: rest, k =>
    match dictLookupLast rest k with
    | some v => some v
    | none => if p.1 = k then some p.2 else none

/-- The state of the persisted configuration file as `load_config` sees
it: missing, unreadable (`IOError`), undecodable (`json.JSONDecodeError`),
or successfully parsed to a JSON object or to a non-iterable value such as
a number. -/
inductive ConfigFileState where
  | absent
  | unreadable
  | unparseable
  | parsedObj (entries : Dict)
  | parsedNum (n : Int)

/-- Embedding of `load_config` (gw.py lines 50-63).  The defaults are
assigned first; a missing file leaves them untouched, `IOError` and
`json.JSONDecodeError` are caught by the `except` clause, and a parsed
object is merged with `self.config.update(...)`.  A file that parses to a
non-iterable value (e.g. the JSON document `1`) makes `dict.update` raise
`TypeError`, which the `except (json.JSONDecodeError, IOError)` clause
does not catch, so the call raises. -/
def load_config : ConfigFileState → Except String Dict
  | .absent => .ok defaults
  | .unreadable => .ok defaults
  | .unparseable => .ok defaults
  | .parsedObj entries => .ok (dictUpdate defaults entries)
  | .parsedNum _ => .error "TypeError"

/-! ## Characterization lemmas for the dispatch loops -/

theorem seqStep_foldl (outcome : String → Bool) (l : List String) :
    ∀ acc : Nat × List String,
      l.foldl (seqStep outcome) acc =
        (acc.1 + l.countP (fun r => outcome r),
         acc.2 ++ l.filter (fun r => !outcome r)) := by
  induction l with
  | nil => intro acc; simp
  | cons r rest ih =>
    intro acc
    rw [List.foldl_cons, ih]
    cases h : outcome r
    · simp [seqStep, h, List.countP_cons, List.filter_cons]
    · simp [seqStep, h, List.countP_cons, List.filter_cons]
      omega

theorem pushSequential_eq (outcome : String → Bool) (remotes : List String) :
    pushSequential outcome remotes =
      (remotes.countP (fun r => outcome r),
       remotes.filter (fun r => !outcome r)) := by
  simp [pushSequential, seqStep_foldl]

theorem parStep_eq (wr : String → WorkerResult) :
    parStep wr = seqStep (workerOk wr) := by
  funext acc r
  cases h : wr r with
  | ok b => cases b <;> simp [parStep, seqStep, workerOk, h]
  | raised => simp [parStep, seqStep, workerOk, h]

theorem pushParallel_eq_sequential (wr : String → WorkerResult)
    (completed : List String) :
    pushParallel wr completed = pushSequential (workerOk wr) completed := by
  simp [pushParallel, pushSequential, parStep_eq]

theorem pushParallel_eq (wr : String → WorkerResult) (completed : List String) :
    pushParallel wr completed =
      (completed.countP (fun r => workerOk wr r),
       completed.filter (fun r => !workerOk wr r)) := by
  rw [pushParallel_eq_sequential, pushSequential_eq]

theorem countP_add_filter_length (p : String → Bool) (l : List String) :
    l.countP (fun r => p r) + (l.filter (fun r => !p r)).length = l.length := by
  induction l with
  | nil => simp
  | cons a rest ih =>
    simp only [List.countP_cons, List.filter_cons, List.length_cons]
    cases h : p a
    · simp [h]
      omega
    · simp [h]
      omega

theorem workerOk_ok (outcome : String → Bool) :
    workerOk (fun r => WorkerResult.ok (outcome r)) = outcome := by
  funext r
  cases h : outcome r <;> simp [workerOk, h]

/-! ## Lemmas on the dict model -/

theorem dictLookup_dictSet (d : Dict) (k k' : String) (v : JsonVal) :
    dictLookup (dictSet d k v) k' = if k' = k then some v else dictLookup d k' := by
  induction d with
  | nil =>
    by_cases h : k' = k
    · simp [dictSet, dictLookup, h]
    · have h2 : ¬k = k' := fun hh => h hh.symm
      simp [dictSet, dictLookup, h, h2]
  | cons a rest ih =>
    by_cases ha : a.1 = k
    · by_cases hk : k' = k
      · simp [dictSet, dictLookup, ha, hk]
      · have hk2 : ¬k = k' := fun hh => hk hh.symm
        have ha2 : ¬a.1 = k' := fun hh => hk (ha.symm.trans hh).symm
        simp [dictSet, dictLookup, ha, hk, hk2, ha2]
    · by_cases hk : a.1 = k'
      · have hk2 : ¬k' = k := fun hh => ha (hk.trans hh)
        simp [dictSet, dictLookup, ha, hk, hk2]
      · simp [dictSet, dictLookup, ha, hk, ih]

theorem dictLookup_dictUpdate (entries : Dict) :
    ∀ (d : Dict) (k : String),
      dictLookup (dictUpdate d entries) k =
        match dictLookupLast entries k with
        | some v => some v
        | none => dictLookup d k := by
  induction entries with
  | nil => intro d k; simp [dictUpdate, dictLookupLast]
  | cons p rest ih =>
    intro d k
    simp only [dictUpdate, List.foldl_cons] at *
    rw [ih]
    cases hl : dictLookupLast rest k with
    | some v => simp [dictLookupLast, hl]
    | none =>
      simp only [dictLookupLast, hl, dictLookup_dictSet]
      by_cases h : k = p.1 <;> simp [h, eq_comm]

/-! ## Claim theorems -/

/-- C1 counterexample: with two selected remotes `origin` and `backup`
that both fail, a parallel run whose completion order is `backup` first
reports `failed = ["backup", "origin"]`, not the request order
`["origin", "backup"]`: the reported order follows completion order. -/
theorem parallel_failed_order_counterexample :
    List.Perm ["backup", "origin"] ["origin", "backup"] ∧
    (pushParallelSummary (fun _ => WorkerResult.ok false) ["origin", "backup"]
        ["backup", "origin"]).failed = ["backup", "origin"] ∧
    ["backup", "origin"] ≠ (["origin", "backup"] : List String) := by
  decide

/-- C1 (amended): the sequential summary lists failed targets in request
order, but the parallel summary lists them in thread completion order: the
failed list equals the failing targets filtered out of the completion
order, which is a permutation of (but in general not equal to) the
request-order failed list. -/
theorem push_failed_order (wr : String → WorkerResult) (outcome : String → Bool)
    (remotes completed : List String) (hperm : List.Perm completed remotes) :
    (pushSequentialSummary outcome remotes).failed =
      remotes.filter (fun r => !outcome r) ∧
    (pushParallelSummary wr remotes completed).failed =
      completed.filter (fun r => !workerOk wr r) ∧
    List.Perm (pushParallelSummary wr remotes completed).failed
      (remotes.filter (fun r => !workerOk wr r)) := by
  refine ⟨?_, ?_, ?_⟩
  · simp [pushSequentialSummary, pushSequential_eq]
  · simp [pushParallelSummary, pushParallel_eq]
  · simp only [pushParallelSummary, pushParallel_eq]
    exact hperm.filter _

/-- Witness for `push_failed_order` at a concrete dispatch. -/
theorem push_failed_order_witness :
    (pushSequentialSummary (fun _ => false) ["origin", "backup"]).failed =
      ["origin", "backup"].filter (fun _ => !false) ∧
    (pushParallelSummary (fun _ => WorkerResult.ok false) ["origin", "backup"]
        ["backup", "origin"]).failed =
      ["backup", "origin"].filter
        (fun r => !workerOk (fun _ => WorkerResult.ok false) r) ∧
    List.Perm
      (pushParallelSummary (fun _ => WorkerResult.ok false) ["origin", "backup"]
        ["backup", "origin"]).failed
      (["origin", "backup"].filter
        (fun r => !workerOk (fun _ => WorkerResult.ok false) r)) :=
  push_failed_order (fun _ => WorkerResult.ok false) (fun _ => false)
    ["origin", "backup"] ["backup", "origin"] (by decide)

/-- C2: for every non-empty target list and any assignment of per-target
success, failure or worker exception, the summary of a completed dispatch
satisfies `succeeded + len(failed) = total number of targets`, in both
sequential and parallel mode. -/
theorem push_summary_counts (outcome : String → Bool)
    (wr : String → WorkerResult) (remotes completed : List String)
    (_hne : remotes ≠ []) (hperm : List.Perm completed remotes) :
    (pushSequentialSummary outcome remotes).succeeded
        + (pushSequentialSummary outcome remotes).failed.length
      = remotes.length ∧
    (pushParallelSummary wr remotes completed).succeeded
        + (pushParallelSummary wr remotes completed).failed.length
      = remotes.length := by
  constructor
  · simp only [pushSequentialSummary, pushSequential_eq]
    exact countP_add_filter_length (fun r => outcome r) remotes
  · simp only [pushParallelSummary, pushParallel_eq]
    rw [← hperm.length_eq]
    exact countP_add_filter_length (fun r => workerOk wr r) completed

/-- Witness for `push_summary_counts` at a concrete dispatch. -/
theorem push_summary_counts_witness :
    (pushSequentialSummary (fun _ => true) ["origin"]).succeeded
        + (pushSequentialSummary (fun _ => true) ["origin"]).failed.length
      = ["origin"].length ∧
    (pushParallelSummary (fun _ => WorkerResult.raised) ["origin"]
        ["origin"]).succeeded
        + (pushParallelSummary (fun _ => WorkerResult.raised) ["origin"]
            ["origin"]).failed.length
      = ["origin"].length :=
  push_summary_counts (fun _ => true) (fun _ => WorkerResult.raised) ["origin"]
    ["origin"] (by decide) (by decide)

/-- C3 counterexample: with remotes `["origin", "backup"]` and identical
per-target outcomes (both fail), the sequential summary and a parallel run
completing in the order `["backup", "origin"]` differ: the failed lists
are reversed, so the execution mode is observable in the result. -/
theorem mode_observable_counterexample :
    List.Perm ["backup", "origin"] ["origin", "backup"] ∧
    pushSequentialSummary (fun _ => false) ["origin", "backup"] ≠
      pushParallelSummary (fun _ => WorkerResult.ok false) ["origin", "backup"]
        ["backup", "origin"] := by
  decide

/-- C3 (amended): for identical per-target outcomes the two modes agree on
the total, the succeeded count and the multiset of failed targets, and the
summaries are fully identical exactly when completion order coincides with
request order; the order of the parallel failed list is the observable
difference. -/
theorem mode_equivalence (outcome : String → Bool)
    (remotes completed : List String) (hperm : List.Perm completed remotes) :
    (pushParallelSummary (fun r => WorkerResult.ok (outcome r)) remotes
        completed).total = (pushSequentialSummary outcome remotes).total ∧
    (pushParallelSummary (fun r => WorkerResult.ok (outcome r)) remotes
        completed).succeeded
      = (pushSequentialSummary outcome remotes).succeeded ∧
    List.Perm
      (pushParallelSummary (fun r => WorkerResult.ok (outcome r)) remotes
        completed).failed
      (pushSequentialSummary outcome remotes).failed ∧
    (completed = remotes →
      pushParallelSummary (fun r => WorkerResult.ok (outcome r)) remotes
        completed = pushSequentialSummary outcome remotes) := by
  refine ⟨rfl, ?_, ?_, ?_⟩
  · simp only [pushParallelSummary, pushSequentialSummary, pushParallel_eq,
      pushSequential_eq, workerOk_ok]
    exact hperm.countP_eq _
  · simp only [pushParallelSummary, pushSequentialSummary, pushParallel_eq,
      pushSequential_eq, workerOk_ok]
    exact hperm.filter _
  · intro h
    simp [pushParallelSummary, pushSequentialSummary, pushParallel_eq,
      pushSequential_eq, workerOk_ok, h]

/-- Witness for `mode_equivalence` at a concrete dispatch. -/
theorem mode_equivalence_witness :
    (pushParallelSummary (fun r => WorkerResult.ok ((fun _ => false) r))
        ["origin", "backup"] ["backup", "origin"]).total
      = (pushSequentialSummary (fun _ => false) ["origin", "backup"]).total ∧
    (pushParallelSummary (fun r => WorkerResult.ok ((fun _ => false) r))
        ["origin", "backup"] ["backup", "origin"]).succeeded
      = (pushSequentialSummary (fun _ => false) ["origin", "backup"]).succeeded ∧
    List.Perm
      (pushParallelSummary (fun r => WorkerResult.ok ((fun _ => false) r))
        ["origin", "backup"] ["backup", "origin"]).failed
      (pushSequentialSummary (fun _ => false) ["origin", "backup"]).failed ∧
    (["backup", "origin"] = ["origin", "backup"] →
      pushParallelSummary (fun r => WorkerResult.ok ((fun _ => false) r))
        ["origin", "backup"] ["backup", "origin"]
        = pushSequentialSummary (fun _ => false) ["origin", "backup"]) :=
  mode_equivalence (fun _ => false) ["origin", "backup"] ["backup", "origin"]
    (by decide)

/-- C4 counterexample: the branch name `"bad branch"` contains a space,
so `validate_branch_name` rejects it, yet the multi-remote push flow
(which never calls the validator) still spawns one push subprocess per
selected remote: two invocations, not zero. -/
theorem push_branch_validation_counterexample :
    validate_branch_name "bad branch" = false ∧
    interactive_push_multiple ["origin", "backup"] "bad branch" [1, 2] =
      [["git", "push", "origin", "bad branch"],
       ["git", "push", "backup", "bad branch"]] ∧
    (interactive_push_multiple ["origin", "backup"] "bad branch" [1, 2]).length
      ≠ 0 := by
  decide

/-- C4 (amended): the multi-target push flow performs no branch-name
validation: for any branch name that `validate_branch_name` rejects, a
dispatch with more than one available remote and a non-empty selection
still spawns exactly one push subprocess invocation per selected remote,
rather than zero. -/
theorem push_multiple_unvalidated (branch : String) (remotes : List String)
    (nums : List Int) (_hbad : validate_branch_name branch = false)
    (h2 : 1 < remotes.length) (hsel : get_multiple_choice remotes nums ≠ []) :
    (interactive_push_multiple remotes branch nums).length =
      (get_multiple_choice remotes nums).length ∧
    interactive_push_multiple remotes branch nums ≠ [] := by
  have hne : remotes.isEmpty = false := by
    cases remotes with
    | nil => simp at h2
    | cons a l => simp [List.isEmpty]
  have h1 : remotes.length ≠ 1 := by omega
  unfold interactive_push_multiple
  rw [hne]
  simp only [Bool.false_eq_true, if_false, if_neg h1]
  cases hv : get_multiple_choice remotes nums with
  | nil => exact absurd hv hsel
  | cons s ss =>
    constructor
    · simp [pushInvocations]
    · simp [pushInvocations]

/-- Witness for `push_multiple_unvalidated` at a concrete dispatch. -/
theorem push_multiple_unvalidated_witness :
    (interactive_push_multiple ["origin", "backup"] "-bad" [2]).length =
      (get_multiple_choice ["origin", "backup"] [2]).length ∧
    interactive_push_multiple ["origin", "backup"] "-bad" [2] ≠ [] :=
  push_multiple_unvalidated "-bad" ["origin", "backup"] [2] (by decide)
    (by decide) (by decide)

/-- C5: the parallel branch of `_push_to_remotes` is taken only when the
`parallel_push` configuration entry is enabled and there is more than one
remote; with at most one remote (in particular a single-target request)
the dispatch is always sequential. -/
theorem mode_selection (parallel parallel_push : Bool) (remotes : List String) :
    (push_to_remotes_parallel parallel parallel_push remotes = true →
      parallel_push = true ∧ 1 < remotes.length) ∧
    (remotes.length ≤ 1 →
      push_to_remotes_parallel parallel parallel_push remotes = false) := by
  constructor
  · intro h
    simp only [push_to_remotes_parallel, Bool.and_eq_true, decide_eq_true_eq] at h
    exact ⟨h.1.2, h.2⟩
  · intro h
    simp only [push_to_remotes_parallel]
    have : ¬1 < remotes.length := by omega
    simp [this]

/-- Witness for `mode_selection` at a concrete single-target request. -/
theorem mode_selection_witness :
    (push_to_remotes_parallel true true ["origin"] = true →
      true = true ∧ 1 < (["origin"] : List String).length) ∧
    ((["origin"] : List String).length ≤ 1 →
      push_to_remotes_parallel true true ["origin"] = false) :=
  mode_selection true true ["origin"]

/-- C6 counterexample: entering the duplicate selection `1,1` over the
remotes `["origin", "backup"]` selects `["origin", "origin"]`; the
dispatch then pushes to `origin` twice and records two outcomes for the
single distinct target, so duplicates are neither rejected nor
de-duplicated. -/
theorem duplicate_targets_counterexample :
    get_multiple_choice ["origin", "backup"] [1, 1] = ["origin", "origin"] ∧
    pushInvocations ["origin", "origin"] "main" =
      [["git", "push", "origin", "main"], ["git", "push", "origin", "main"]] ∧
    (pushSequentialSummary (fun _ => false) ["origin", "origin"]).failed =
      ["origin", "origin"] := by
  decide

/-- C6 (amended): duplicate selections are preserved, not rejected or
de-duplicated: a valid selection maps every entered index to its target,
duplicates included, and the dispatch issues one push invocation per list
entry, so a target occurring k times in the selection is pushed k times
and yields k outcomes. -/
theorem duplicate_targets_preserved (choices : List String) (nums : List Int)
    (hvalid : nums.all (fun n => 1 ≤ n && n ≤ (choices.length : Int)) = true)
    (branch : String) (t : String) :
    get_multiple_choice choices nums =
      nums.map (fun n => choices.getD (n - 1).toNat "") ∧
    ∀ remotes : List String,
      (pushInvocations remotes branch).length = remotes.length ∧
      (pushInvocations remotes branch).countP
          (fun i => i == ["git", "push", t, branch])
        = remotes.countP (fun r => r == t) := by
  constructor
  · simp [get_multiple_choice, hvalid]
  · intro remotes
    constructor
    · simp [pushInvocations]
    · unfold pushInvocations
      rw [List.countP_map]
      apply List.countP_congr
      intro r _
      simp [Function.comp]

/-- Witness for `duplicate_targets_preserved` at a concrete duplicate
selection. -/
theorem duplicate_targets_preserved_witness :
    get_multiple_choice ["origin", "backup"] [1, 1] =
      [1, 1].map (fun n : Int => ["origin", "backup"].getD (n - 1).toNat "") ∧
    ∀ remotes : List String,
      (pushInvocations remotes "main").length = remotes.length ∧
      (pushInvocations remotes "main").countP
          (fun i => i == ["git", "push", "origin", "main"])
        = remotes.countP (fun r => r == "origin") :=
  duplicate_targets_preserved ["origin", "backup"] [1, 1] (by decide) "main"
    "origin"

/-- C7 counterexample: with `max_history = 0` the slice `history[-0:]` is
`history[0:]`, the whole list, so after adding one entry the persisted
history holds that entry instead of the most recent zero entries. -/
theorem history_cap_zero_counterexample :
    add_to_history 0 [] "command0" "Description 0" 0 =
      [⟨"command0", "Description 0", 0⟩] ∧
    ([⟨"command0", "Description 0", 0⟩] : List HistoryEntry) ≠ [] := by
  decide

/-- C7 (amended): for every positive cap `N`, each save trims the history
to its most recent `min N (length)` entries in insertion order (the claim
fails only at `N = 0`, where the Python slice `[-0:]` keeps everything);
in particular the spec scenario holds: with `max_history = 5`, adding
`command0` .. `command9` leaves exactly `command5` .. `command9`. -/
theorem history_trim (N : Nat) (hN : 1 ≤ N) (history : List HistoryEntry) :
    save_history (N : Int) history = history.drop (history.length - N) ∧
    scenarioHistory.map (fun e => e.command) =
      ["command5", "command6", "command7", "command8", "command9"] := by
  constructor
  · unfold save_history pySliceFrom
    rw [if_neg (by omega)]
    congr 1
    omega
  · decide

/-- Witness for `history_trim` at the concrete cap 5. -/
theorem history_trim_witness :
    save_history ((5 : Nat) : Int) ([] : List HistoryEntry) =
      ([] : List HistoryEntry).drop (([] : List HistoryEntry).length - 5) ∧
    scenarioHistory.map (fun e => e.command) =
      ["command5", "command6", "command7", "command8", "command9"] :=
  history_trim 5 (by decide) []

/-- C8 counterexample: a configuration file whose content parses to the
JSON value `1` is neither absent nor unparseable, yet `load_config` raises
(`dict.update` throws `TypeError`, which the `except (json.JSONDecodeError,
IOError)` clause does not catch) instead of returning any configuration. -/
theorem load_config_raises_counterexample :
    load_config (ConfigFileState.parsedNum 1) = Except.error "TypeError" ∧
    load_config (ConfigFileState.parsedNum 1) ≠ Except.ok defaults :=
  ⟨rfl, by simp [load_config]⟩

/-- C8 (amended): an absent, unreadable or undecodable configuration file
yields exactly the hardcoded defaults; a file parsing to a JSON object is
merged without raising, keys missing from the file keep their default
value and keys from the file (known or unknown) get the file's value; but
a file parsing to a non-iterable value such as a number makes loading
raise an uncaught `TypeError`. -/
theorem load_config_behavior :
    load_config ConfigFileState.absent = Except.ok defaults ∧
    load_config ConfigFileState.unreadable = Except.ok defaults ∧
    load_config ConfigFileState.unparseable = Except.ok defaults ∧
    (∀ entries, load_config (ConfigFileState.parsedObj entries)
        = Except.ok (dictUpdate defaults entries)) ∧
    (∀ entries k, dictLookupLast entries k = none →
      dictLookup (dictUpdate defaults entries) k = dictLookup defaults k) ∧
    (∀ entries k v, dictLookupLast entries k = some v →
      dictLookup (dictUpdate defaults entries) k = some v) ∧
    (∀ n, load_config (ConfigFileState.parsedNum n) = Except.error "TypeError") := by
  refine ⟨rfl, rfl, rfl, fun _ => rfl, ?_, ?_, fun _ => rfl⟩
  · intro entries k h
    rw [dictLookup_dictUpdate]
    simp [h]
  · intro entries k v h
    rw [dictLookup_dictUpdate]
    simp [h]

/-- Witness for `load_config_behavior` on a file holding one unknown key. -/
theorem load_config_behavior_witness :
    dictLookup (dictUpdate defaults [("theme", JsonVal.str "dark")])
        "default_branch" = dictLookup defaults "default_branch" ∧
    dictLookup (dictUpdate defaults [("theme", JsonVal.str "dark")]) "theme"
      = some (JsonVal.str "dark") :=
  ⟨load_config_behavior.2.2.2.2.1 [("theme", JsonVal.str "dark")]
      "default_branch" (by decide),
   load_config_behavior.2.2.2.2.2.1 [("theme", JsonVal.str "dark")] "theme"
      (JsonVal.str "dark") (by decide)⟩

/-- C9: a non-zero exit status of the external tool never propagates as an
exception from `run_git_command` (it returns `False`), and a per-target
failure or worker exception never aborts the dispatch: both engines fold
over the complete target list, placing every target in exactly one of the
success count or the failed list, and always produce the summary with
`total = len(remotes)`. -/
theorem per_target_failure_isolated (res : ProcResult) (capture : Bool)
    (hres : res.returncode ≠ 0) (outcome : String → Bool)
    (wr : String → WorkerResult) (remotes completed : List String)
    (_hperm : List.Perm completed remotes) :
    run_git_command res capture = GitCommandResult.bool false ∧
    pushSequentialSummary outcome remotes =
      ⟨remotes.countP (fun r => outcome r), remotes.length,
        remotes.filter (fun r => !outcome r)⟩ ∧
    pushParallelSummary wr remotes completed =
      ⟨completed.countP (fun r => workerOk wr r), remotes.length,
        completed.filter (fun r => !workerOk wr r)⟩ := by
  refine ⟨?_, ?_, ?_⟩
  · simp [run_git_command, hres]
  · simp [pushSequentialSummary, pushSequential_eq]
  · simp [pushParallelSummary, pushParallel_eq]

/-- Witness for `per_target_failure_isolated` at a concrete failing
invocation and dispatch. -/
theorem per_target_failure_isolated_witness :
    run_git_command ⟨1, "", "fatal: auth error"⟩ false
      = GitCommandResult.bool false ∧
    pushSequentialSummary (fun _ => false) ["origin", "backup"] =
      ⟨["origin", "backup"].countP (fun _ => false),
        (["origin", "backup"] : List String).length,
        ["origin", "backup"].filter (fun _ => !false)⟩ ∧
    pushParallelSummary (fun _ => WorkerResult.raised) ["origin", "backup"]
        ["backup", "origin"] =
      ⟨["backup", "origin"].countP
          (fun r => workerOk (fun _ => WorkerResult.raised) r),
        (["origin", "backup"] : List String).length,
        ["backup", "origin"].filter
          (fun r => !workerOk (fun _ => WorkerResult.raised) r)⟩ :=
  per_target_failure_isolated ⟨1, "", "fatal: auth error"⟩ false (by decide)
    (fun _ => false) (fun _ => WorkerResult.raised) ["origin", "backup"]
    ["backup", "origin"] (by decide)

/-- C10: `get_remotes` is total and never propagates a failure of the
underlying `git remote` invocation: a non-zero exit status and an empty
(or all-whitespace) output both yield the empty list, and only a
successful invocation with non-empty stripped output yields its lines, so
a failed query is indistinguishable from a repository with no remotes. -/
theorem get_remotes_total (proc : ProcResult) :
    (proc.returncode ≠ 0 → get_remotes proc = []) ∧
    (pyStrip proc.stdout = "" → get_remotes proc = []) ∧
    (proc.returncode = 0 → pyStrip proc.stdout ≠ "" →
      get_remotes proc = pySplitNl (pyStrip proc.stdout)) := by
  by_cases h : proc.returncode = 0
  · refine ⟨fun hc => absurd h hc, ?_, ?_⟩
    · intro he
      simp [get_remotes, run_git_command, h, he]
    · intro _ hne
      simp [get_remotes, run_git_command, h, hne]
  · refine ⟨fun _ => ?_, fun _ => ?_, fun hc => absurd hc h⟩ <;>
      simp [get_remotes, run_git_command, h]

/-- Witness for `get_remotes_total`: a failed query and an empty-output
query both give the empty remote list. -/
theorem get_remotes_total_witness :
    get_remotes ⟨128, "", "fatal: not a git repository"⟩ = [] ∧
    get_remotes ⟨0, "\n", ""⟩ = [] :=
  ⟨(get_remotes_total ⟨128, "", "fatal: not a git repository"⟩).1 (by decide),
   (get_remotes_total ⟨0, "\n", ""⟩).2.1 (by decide)⟩

end GitWrapper
